import Mathlib

/-!
Verification of the access-control gateway and permission-reconciling search
pipeline of the `slack_search_mcp` service, together with the shared
team-authorization helper.

The Python sources are embedded shallowly:

* `SecurityMiddleware._check_impersonation_rate_limit` (the windowed
  distinct-impersonation counter) over an explicit append-only store;
* `SecurityMiddleware.__call__` as a pure function from an environment of
  external calls (secret store, token verifiers, directory lookups, the
  downstream handler) and an HTTP request to a result record that retains the
  response, the impersonation store, the headers and context forwarded to the
  handler, and the list of externally visible verification effects;
* `search_slack_messages` with every fallible external call modelled as
  `Except`;
* `is_team_authorized` and `_get_whitelists` from the shared security library.

Machine time is modelled as `Int` seconds.  Header lookup is case-insensitive,
as in Starlette.  Python falsiness of optional strings (absent or empty) is
modelled by `strFalsy`.
-/

namespace Aibot

/-- Python falsiness of an optional string: `None` and the empty string are
falsy, everything else truthy. -/
def strFalsy : Option String → Bool
  | none => true
  | some s => s == ""

/-- Python `str(...)` of an optional string as interpolated into f-strings:
`None` renders as the literal `None`. -/
def pyStr : Option String → String
  | none => "None"
  | some s => s

/-! ## Windowed impersonation counter
Embeds `SecurityMiddleware._check_impersonation_rate_limit` from
`src/python/services/slack_search_mcp/main.py`. -/

/-- Window size in seconds (`IMPERSONATION_WINDOW_SECONDS = 60`). -/
def IMPERSONATION_WINDOW_SECONDS : Int := 60

/-- Maximum distinct impersonated users per window
(`MAX_UNIQUE_IMPERSONATIONS = 20`). -/
def MAX_UNIQUE_IMPERSONATIONS : Nat := 20

/-- One document of the impersonation log collection: the code stores
`user_email` and `timestamp` (the `expiry` field is only a TTL hint and is
never read back). -/
structure LogEntry where
  user_email : String
  timestamp : Int
  deriving DecidableEq, Repr

/-- Step 1 of the rate-limit check: unconditionally append a log entry for
this impersonation attempt. -/
def recordImpersonationEntry (store : List LogEntry) (email : String)
    (now : Int) : List LogEntry :=
  store ++ [{ user_email := email, timestamp := now }]

/-- Step 2 and 3: the set of distinct `user_email` values among entries with
`timestamp >= cutoff` (the code folds the streamed query into a Python set). -/
def uniqueUsersInWindow (store : List LogEntry) (cutoff : Int) : Finset String :=
  ((store.filter fun e => decide (cutoff ≤ e.timestamp)).map
    LogEntry.user_email).toFinset

/-- The whole of `_check_impersonation_rate_limit`: append the fresh entry,
then count distinct users with `timestamp >= now - IMPERSONATION_WINDOW_SECONDS`
and allow iff the count is at most `MAX_UNIQUE_IMPERSONATIONS`.  Returns the
allowed flag together with the updated store. -/
def checkImpersonationRateLimit (store : List LogEntry) (email : String)
    (now : Int) : Bool × List LogEntry :=
  let store1 := recordImpersonationEntry store email now
  let cutoff := now - IMPERSONATION_WINDOW_SECONDS
  (decide ((uniqueUsersInWindow store1 cutoff).card ≤ MAX_UNIQUE_IMPERSONATIONS),
    store1)

/-! ## Security middleware
Embeds `SecurityMiddleware.__call__` from
`src/python/services/slack_search_mcp/main.py` as a pure function from an
environment of external calls and an HTTP request to a result record. -/

/-- An HTTP request as the middleware sees it: URL path and the header list
from the ASGI scope (name-value pairs, order preserved). -/
structure HttpRequest where
  path : String
  headers : List (String × String)
  deriving DecidableEq, Repr

/-- ASCII lowercase of a string (Python `str.lower` on header names), defined
over the character list so that it evaluates by kernel reduction. -/
def lowerStr (s : String) : String := String.mk (s.data.map Char.toLower)

/-- Case-insensitive header lookup, as Starlette's `request.headers.get`. -/
def headerGet (hs : List (String × String)) (name : String) : Option String :=
  (hs.find? fun kv => lowerStr kv.1 == lowerStr name).map Prod.snd

/-- Header scrubbing of step 3: keep every ASGI header pair whose name is not
`x-user-id-token` (case-insensitively), in order. -/
def scrubUserIdToken (hs : List (String × String)) : List (String × String) :=
  hs.filter fun kv => !(lowerStr kv.1 == "x-user-id-token")

/-- Paths served by the middleware (`/mcp/sse`, `/mcp/messages`,
`/mcp/messages/`). -/
def ALLOWED_PATHS : List String := ["/mcp/sse", "/mcp/messages", "/mcp/messages/"]

/-- Claim set of a verified IAP JWT; only the `email` claim is consulted. -/
structure IapPayload where
  email : Option String
  deriving DecidableEq, Repr

/-- Claim set of a verified on-behalf-of (user ID) token; only the `email`
claim is consulted. -/
structure UserPayload where
  email : Option String
  deriving DecidableEq, Repr

/-- The `enterprise_user` sub-object of a Slack user record (Enterprise Grid
fallback source for the team id). -/
structure EnterpriseUser where
  teams : List String
  deriving DecidableEq, Repr

/-- The `user` object of a `users_lookupByEmail` response; absent fields are
`none`. -/
structure SlackUser where
  id : Option String
  team_id : Option String
  enterprise_id : Option String
  enterprise_user : Option EnterpriseUser
  deriving DecidableEq, Repr

/-- A `users_lookupByEmail` response: `ok` flag plus the user object (empty
defaults when missing). -/
structure SlackResp where
  ok : Bool
  user : SlackUser
  deriving DecidableEq, Repr

/-- Enterprise-Grid fallback of step 4: when `team_id` is falsy and an
`enterprise_user` object with a non-empty `teams` list exists, take the first
team; otherwise keep the original value. -/
def resolveTeamId (u : SlackUser) : Option String :=
  if strFalsy u.team_id then
    match u.enterprise_user with
    | some ent =>
      match ent.teams with
      | [] => u.team_id
      | t :: _ => some t
    | none => u.team_id
  else u.team_id

/-- Externally visible verification effects of one middleware pass, in
execution order.  `verifyUserToken` records the audience the on-behalf-of
token was verified against (`none` means the audience check was omitted). -/
inductive Effect where
  | verifyIap (audience : Option String)
  | verifyUserToken (audience : Option String)
  | rateCheck (email : String)
  | slackLookup (email : String)
  | authorizeCheck (email : String)
  | dispatch
  deriving DecidableEq, Repr

/-- Whether the downstream ASGI app returns normally or raises. -/
inductive HandlerBehavior where
  | succeeds
  | raises
  deriving DecidableEq, Repr

/-- Environment of external calls made by the middleware.  Each field stands
for one collaborator: the secret store (`get_secret_value`, `none` on
failure), the IAP verifier (`verify_iap_jwt`, `none` on any failure), the
Google on-behalf-of token verifier (`verify_oauth2_token`, which raises on
invalid tokens, taking `none` audience to skip the audience check), the Slack
directory lookup, the shared authorization check, the downstream handler and
the clock. -/
structure Env where
  getSecret : String → Option String
  verifyIapJwt : String → Option String → Option IapPayload
  verifyOauth2Token : String → Option String → Except String UserPayload
  usersLookupByEmail : String → SlackResp
  isUserAuthorized : String → Option String → Option String → Bool
  handler : HandlerBehavior
  now : Int

/-- Result of one middleware pass: response status and error body field, the
effect trace, the impersonation store afterwards, the header list and the
request-scoped context pair (user id, team id) seen by the handler (`none`
when the handler was never dispatched), and the context values left behind
after the pass. -/
structure MwResult where
  status : Nat
  error : Option String
  effects : List Effect
  store : List LogEntry
  handlerHeaders : Option (List (String × String))
  handlerCtx : Option (Option String × Option String)
  finalCtxUser : Option String
  finalCtxTeam : Option String
  deriving Repr

/-- Whether the first character list is an initial segment of the second. -/
def leadMatch : List Char → List Char → Bool
  | [], _ => true
  | _ :: _, [] => false
  | p :: ps, c :: cs => p == c && leadMatch ps cs

/-- Whether the pattern occurs somewhere inside the text. -/
def occursIn (pat : List Char) : List Char → Bool
  | [] => leadMatch pat []
  | c :: cs => leadMatch pat (c :: cs) || occursIn pat cs

/-- Python substring containment (`pat in s`) over the character lists. -/
def containsSubstring (s pat : String) : Bool := occursIn pat.data s.data

/-- The logic-intermediary pattern of step 3 (`"aibot-logic" in
caller_email`). -/
def is_logic_server (email : String) : Bool :=
  containsSubstring email "aibot-logic"

/-- Modelled from the spec: the accessor-intermediary branch
(`mcp-client-accessor` caller pattern) of `SecurityMiddleware.__call__` is
absent from the middleware source under `src/` — only its tests exist
(`tests/test_mcp_client_accessor.py`).  Per the spec's policy table the
accessor service also requires an on-behalf-of token (401 when absent), which
is verified for signature and expiry only, with no audience restriction, and
is subject to the same rate limiting and header scrubbing as the logic
branch. -/
def is_accessor_server (email : String) : Bool :=
  containsSubstring email "mcp-client-accessor"

/-- Outcome of step 3 (identity determination): either an early rejection or
the final acting-as email together with the (possibly scrubbed) headers, the
effect trace of the step and the updated impersonation store. -/
inductive ResolveOutcome where
  | reject (status : Nat) (error : String) (effects : List Effect)
      (store : List LogEntry)
  | proceed (finalEmail : String) (headers : List (String × String))
      (effects : List Effect) (store : List LogEntry)
  deriving Repr

/-- The `try` body of step 3: verify the presented on-behalf-of token under
the selected audience (a raising verifier is the `Except.error` case, caught
and rendered as the 403 response), require a truthy email claim, rate-limit
the impersonated identity, and scrub the token header on success. -/
def verifyObo (env : Env) (audience : Option String) (tok : String)
    (store : List LogEntry) (headers : List (String × String)) :
    ResolveOutcome :=
  match env.verifyOauth2Token tok audience with
  | .error e =>
    .reject 403 ("Invalid User ID Token: " ++ e)
      [.verifyUserToken audience] store
  | .ok payload =>
    if strFalsy payload.email then
      .reject 403 "Invalid User ID Token: User ID Token missing email"
        [.verifyUserToken audience] store
    else
      let finalEmail := payload.email.getD ""
      let rc := checkImpersonationRateLimit store finalEmail env.now
      if rc.1 then
        .proceed finalEmail (scrubUserIdToken headers)
          [.verifyUserToken audience, .rateCheck finalEmail] rc.2
      else
        .reject 429 "Impersonation rate limit exceeded"
          [.verifyUserToken audience, .rateCheck finalEmail] rc.2

/-- Step 3 of `SecurityMiddleware.__call__`: for an intermediary caller
(logic pattern from the source; accessor pattern modelled from the spec, see
`is_accessor_server`) require the on-behalf-of token and verify it via
`verifyObo` — against the configured `iapClientId` audience for the logic
pattern, with no audience for the accessor pattern.  Direct end users pass
through untouched. -/
def resolveUserIdentity (env : Env) (callerEmail : String)
    (headers : List (String × String)) (store : List LogEntry) :
    ResolveOutcome :=
  if is_logic_server callerEmail || is_accessor_server callerEmail then
    let tok := headerGet headers "X-User-ID-Token"
    if strFalsy tok then
      .reject 401
        (if is_logic_server callerEmail then
          "X-User-ID-Token required for Logic Server"
        else "X-User-ID-Token required for MCP Client Accessor") [] store
    else
      let audience :=
        if is_logic_server callerEmail then env.getSecret "iapClientId"
        else none
      verifyObo env audience (tok.getD "") store headers
  else
    .proceed callerEmail headers [] store

/-- Helper for the rejection results of the middleware: response sent, no
handler dispatch, context untouched. -/
def mwReject (status : Nat) (error : String) (effects : List Effect)
    (store : List LogEntry) (u0 t0 : Option String) : MwResult :=
  { status := status, error := some error, effects := effects, store := store,
    handlerHeaders := none, handlerCtx := none,
    finalCtxUser := u0, finalCtxTeam := t0 }

/-- Steps 4 and 5 of `SecurityMiddleware.__call__`, run once the acting-as
identity is resolved: look the email up in the Slack directory, resolve the
team id (Enterprise Grid fallback), run the shared authorization check, then
bind the context variables, dispatch to the handler inside `try/finally` and
unconditionally reset the context variables; a raising handler is caught by
the outer `except` and rendered as the 500 response. -/
def afterIdentity (env : Env) (iapAud : Option String) (finalEmail : String)
    (headers1 : List (String × String)) (effs : List Effect)
    (store1 : List LogEntry) (u0 t0 : Option String) : MwResult :=
  let resp := env.usersLookupByEmail finalEmail
  let effs2 := (Effect.verifyIap iapAud :: effs)
    ++ [Effect.slackLookup finalEmail]
  if !resp.ok then
    mwReject 403 "User not recognized in Slack workspace" effs2 store1 u0 t0
  else
    let teamId := resolveTeamId resp.user
    let effs3 := effs2 ++ [Effect.authorizeCheck finalEmail]
    if !(env.isUserAuthorized finalEmail teamId resp.user.enterprise_id) then
      mwReject 403 "Unauthorized access (Email Domain or Slack Workspace)"
        effs3 store1 u0 t0
    else
      { status :=
          match env.handler with
          | .succeeds => 200
          | .raises => 500,
        error :=
          match env.handler with
          | .succeeds => none
          | .raises => some "Security validation failed",
        effects := effs3 ++ [Effect.dispatch], store := store1,
        handlerHeaders := some headers1,
        handlerCtx := some (resp.user.id, teamId),
        finalCtxUser := u0, finalCtxTeam := t0 }

/-- The whole of `SecurityMiddleware.__call__` for an HTTP request: health
bypass, path allow-list, IAP assertion verification, identity resolution
(step 3, `resolveUserIdentity`), then directory lookup, authorization and
dispatch (`afterIdentity`).  `u0`/`t0` are the context-variable values on
entry. -/
def securityMiddleware (env : Env) (req : HttpRequest) (store : List LogEntry)
    (u0 t0 : Option String) : MwResult :=
  if req.path = "/health" ∨ req.path = "/healthz" then
    { status := 200, error := none, effects := [], store := store,
      handlerHeaders := none, handlerCtx := none,
      finalCtxUser := u0, finalCtxTeam := t0 }
  else if req.path ∉ ALLOWED_PATHS then
    mwReject 403 "Forbidden" [] store u0 t0
  else
    let iapJwt := headerGet req.headers "X-Goog-IAP-JWT-Assertion"
    if strFalsy iapJwt then
      mwReject 401 "Authentication required (IAP)" [] store u0 t0
    else
      let iapAud := env.getSecret "iapAudience"
      match env.verifyIapJwt (iapJwt.getD "") iapAud with
      | none =>
        mwReject 403 "Invalid IAP Assertion" [.verifyIap iapAud] store u0 t0
      | some payload =>
        if strFalsy payload.email then
          mwReject 403 "Email missing from identity" [.verifyIap iapAud]
            store u0 t0
        else
          let callerEmail := payload.email.getD ""
          match resolveUserIdentity env callerEmail req.headers store with
          | .reject st er effs store1 =>
            mwReject st er (Effect.verifyIap iapAud :: effs) store1 u0 t0
          | .proceed finalEmail headers1 effs store1 =>
            afterIdentity env iapAud finalEmail headers1 effs store1 u0 t0

/-- The verified caller email of steps 2 and 3 of the middleware, when one is
established: the IAP assertion header is present and non-empty, verifies
against the configured IAP audience, and carries a truthy email claim. -/
def verifiedCallerEmail (env : Env) (req : HttpRequest) : Option String :=
  let iapJwt := headerGet req.headers "X-Goog-IAP-JWT-Assertion"
  if strFalsy iapJwt then none
  else
    match env.verifyIapJwt (iapJwt.getD "") (env.getSecret "iapAudience") with
    | none => none
    | some p => if strFalsy p.email then none else p.email

/-- Effects of either outcome of the identity-resolution step. -/
def resolveEffects : ResolveOutcome → List Effect
  | .reject _ _ effs _ => effs
  | .proceed _ _ effs _ => effs

/-! ## Search pipeline
Embeds `search_slack_messages` and its helpers from
`src/python/services/slack_search_mcp/main.py`.  Every fallible external call
is an `Except`; the embedding type returned by `generate_embeddings` is an
opaque type parameter, since the pipeline only passes it through.  Cache
writes are not modelled (no claim concerns them); cache reads are environment
functions returning the unexpired entry or `none`. -/

/-- One decision record stored in `permitted_channels` / the channel cache:
the Python dicts hold a `permitted` flag and, when the live lookup succeeded,
a `name`. -/
structure AccessRes where
  permitted : Bool
  name : Option String
  deriving DecidableEq, Repr

/-- The `channel` object of a `conversations_info` response, with the
defaults the code applies (`is_private`/`is_member` default `False`, `name`
defaults `unknown-channel` at use sites). -/
structure ConvChannel where
  is_private : Bool
  is_member : Bool
  name : String
  deriving DecidableEq, Repr

/-- A `conversations_info` response. -/
structure ConvInfoResp where
  ok : Bool
  channel : ConvChannel
  deriving DecidableEq, Repr

/-- The entry `check_channel_access` leaves in `permitted_channels` for a
channel id: the cached decision when the cache holds one; otherwise the live
decision — not permitted when the response is not ok, else permitted iff the
channel is not private or the caller is a member.  When the live call raises,
the handler returns a default without recording anything, so the map entry
stays absent (`none`). -/
def channelAccessEntry (cacheGet : String → Option AccessRes)
    (convInfo : String → Except String ConvInfoResp) (cid : String) :
    Option AccessRes :=
  match cacheGet cid with
  | some cached => some cached
  | none =>
    match convInfo cid with
    | .error _ => none
    | .ok info =>
      if !info.ok then some { permitted := false, name := none }
      else
        some { permitted := !info.channel.is_private || info.channel.is_member,
               name := some info.channel.name }

/-- One vector-search hit: channel id and message timestamp. -/
structure SearchHit where
  channel : String
  ts : String
  deriving DecidableEq, Repr

/-- The truthiness test `permitted_channels.get(row["channel"], {}).get("permitted")`:
absent entries and absent flags are falsy. -/
def permittedLookup (pc : String → Option AccessRes) (cid : String) : Bool :=
  match pc cid with
  | some res => res.permitted
  | none => false

/-- Step 4 of the pipeline: keep exactly the hits whose channel's recorded
decision is permitted. -/
def filterResults (results : List SearchHit)
    (pc : String → Option AccessRes) : List SearchHit :=
  results.filter fun row => permittedLookup pc row.channel

/-- A message object from `conversations_replies`. -/
structure SlackMsg where
  text : Option String
  ts : Option String
  user : Option String
  thread_ts : Option String
  deriving DecidableEq, Repr

/-- A `conversations_replies` response. -/
structure RepliesResp where
  ok : Bool
  messages : List SlackMsg
  deriving DecidableEq, Repr

/-- The `user` object of a `users_info` response. -/
structure UsersInfoUser where
  real_name : Option String
  name : Option String
  deriving DecidableEq, Repr

/-- A `users_info` response. -/
structure UsersInfoResp where
  ok : Bool
  user : UsersInfoUser
  deriving DecidableEq, Repr

/-- The `team` object of a `team_info` response. -/
structure TeamObj where
  domain : Option String
  id : Option String
  deriving DecidableEq, Repr

/-- A `team_info` response. -/
structure TeamInfoResp where
  ok : Bool
  team : TeamObj
  error : Option String
  deriving DecidableEq, Repr

/-- One assembled output message of step 9. -/
structure OutMessage where
  text : Option String
  team_id : Option String
  channel_id : String
  channel_name : String
  ts : String
  user_id : Option String
  user_name : String
  url : String
  thread_ts : Option String
  deriving DecidableEq, Repr

/-- Environment of external calls made by the search tool. -/
structure SearchEnv (Emb : Type) where
  slackUserToken : Option String
  generateEmbeddings : String → Except String Emb
  performVectorSearch : Emb → Except String (List SearchHit)
  cacheGetChannel : String → Option AccessRes
  conversationsInfo : String → Except String ConvInfoResp
  teamInfo : Except String TeamInfoResp
  conversationsReplies : String → String → Except String RepliesResp
  cacheGetUser : String → Option String
  usersInfo : String → Except String UsersInfoResp
  ctxTeamId : Option String

/-- Step 6: fetch one hit's thread; a raising or not-ok call degrades to the
empty message list for that hit only. -/
def fetch_thread_messages {Emb : Type} (env : SearchEnv Emb) (row : SearchHit) :
    String × List SlackMsg :=
  match env.conversationsReplies row.channel row.ts with
  | .error _ => (row.channel, [])
  | .ok resp => if resp.ok then (row.channel, resp.messages) else (row.channel, [])

/-- Python `a or b or c` over two optional strings and a fallback. -/
def firstTruthy (a b : Option String) (c : String) : String :=
  if !(strFalsy a) then a.getD ""
  else if !(strFalsy b) then b.getD "" else c

/-- Step 8: resolve one user's display name, cache first, degrading to
`unknown-user` on a raising or not-ok lookup. -/
def fetch_user_name {Emb : Type} (env : SearchEnv Emb) (uid : String) :
    String × String :=
  match env.cacheGetUser uid with
  | some nm => (uid, nm)
  | none =>
    match env.usersInfo uid with
    | .error _ => (uid, "unknown-user")
    | .ok resp =>
      if resp.ok then (uid, firstTruthy resp.user.real_name resp.user.name uid)
      else (uid, "unknown-user")

/-- Step 7: the distinct truthy `user` fields across all fetched threads. -/
def collectUserIds (thread_data : List (String × List SlackMsg)) : List String :=
  (((thread_data.map Prod.snd).flatten.filterMap SlackMsg.user).filter
    fun u => !(u == "")).dedup

/-- The `user_map` dict of step 8. -/
def userMap {Emb : Type} (env : SearchEnv Emb) (uids : List String) :
    List (String × String) :=
  uids.map (fetch_user_name env)

/-- `ts.replace(".", "")`. -/
def removeDots (s : String) : String := String.join (s.splitOn ".")

/-- The deep-link URL of step 9, including the thread query string when the
message has a truthy `thread_ts` different from its own `ts`. -/
def buildUrl (team_domain : Option String) (channel_id : String)
    (msg : SlackMsg) : String :=
  let ts_str := (msg.ts).getD ""
  let base := "https://" ++ pyStr team_domain ++ ".slack.com/archives/"
    ++ channel_id ++ "/p" ++ removeDots ts_str
  if !(strFalsy msg.thread_ts) && ((msg.thread_ts).getD "" != ts_str) then
    base ++ "?thread_ts=" ++ (msg.thread_ts).getD "" ++ "&cid=" ++ channel_id
  else base

/-- The channel display name used in step 9
(`permitted_channels.get(channel_id, {}).get("name", "unknown-channel")`). -/
def channelNameLookup (pc : String → Option AccessRes) (cid : String) : String :=
  match pc cid with
  | some res => (res.name).getD "unknown-channel"
  | none => "unknown-channel"

/-- Assembly of one output message in step 9. -/
def formatMessage (team_id team_domain : Option String)
    (channel_id channel_name : String) (user_map : List (String × String))
    (msg : SlackMsg) : OutMessage :=
  { text := msg.text, team_id := team_id, channel_id := channel_id,
    channel_name := channel_name, ts := (msg.ts).getD "",
    user_id := msg.user,
    user_name :=
      match msg.user with
      | some u => ((user_map.lookup u).getD "unknown-user")
      | none => "unknown-user",
    url := buildUrl team_domain channel_id msg,
    thread_ts := msg.thread_ts }

/-- Abstraction of `json.dumps(final_messages, indent=2)`: a total rendering
of the assembled messages (byte-exact JSON formatting is out of scope). -/
def renderMessages (msgs : List OutMessage) : String :=
  "[" ++ String.intercalate ", " (msgs.map fun m =>
    "text=" ++ pyStr m.text ++ "; team_id=" ++ pyStr m.team_id
    ++ "; channel_id=" ++ m.channel_id ++ "; channel_name=" ++ m.channel_name
    ++ "; ts=" ++ m.ts ++ "; user_id=" ++ pyStr m.user_id
    ++ "; user_name=" ++ m.user_name ++ "; url=" ++ m.url
    ++ "; thread_ts=" ++ pyStr m.thread_ts) ++ "]"

/-- The `try` body of `search_slack_messages`: embed the query, run the
vector search, reconcile permissions, fetch workspace info (raising on a
not-ok `team_info`, caught by the same function's handler), enrich threads
and user names with per-item degradation, and assemble the result.  The two
explicit empty-result returns are the `.ok` strings. -/
def searchPipeline {Emb : Type} (env : SearchEnv Emb) (query : String) :
    Except String String :=
  match env.generateEmbeddings query with
  | .error e => .error e
  | .ok emb =>
    match env.performVectorSearch emb with
    | .error e => .error e
    | .ok results =>
      if results.isEmpty then .ok "No messages found."
      else
        let pc := channelAccessEntry env.cacheGetChannel env.conversationsInfo
        let filtered := filterResults results pc
        if filtered.isEmpty then
          .ok "No messages found in your authorized channels."
        else
          match env.teamInfo with
          | .error e => .error e
          | .ok teamResp =>
            if !teamResp.ok then
              .error ("Failed to fetch Slack team info: " ++ pyStr teamResp.error)
            else
              let team_domain := teamResp.team.domain
              let team_id :=
                if strFalsy env.ctxTeamId then teamResp.team.id
                else env.ctxTeamId
              let thread_data := filtered.map (fetch_thread_messages env)
              let user_map := userMap env (collectUserIds thread_data)
              let finalMessages := (thread_data.map fun cm =>
                cm.2.map (formatMessage team_id team_domain cm.1
                  (channelNameLookup pc cm.1) user_map)).flatten
              .ok (renderMessages finalMessages)

/-- The whole tool `search_slack_messages`: a falsy token is reported as the
explicit no-token string (the secret getter itself returns `None` rather than
raising, per `shared/gcp_api.py`); every error raised inside the pipeline is
caught and rendered as the explicit error string. -/
def search_slack_messages {Emb : Type} (env : SearchEnv Emb) (query : String) :
    String :=
  if strFalsy env.slackUserToken then "No Slack token found."
  else
    match searchPipeline env query with
    | .ok s => s
    | .error e => "Error during search: " ++ e

/-! ## Shared team authorization
Embeds `_get_whitelists` and `is_team_authorized` from
`src/python/libs/shared/shared/security.py`. -/

/-- The list comprehension `[id.strip() for id in s.split(",") if id.strip()]`. -/
def parseWhitelist (s : String) : List String :=
  ((s.splitOn ",").map String.trim).filter fun x => !(x == "")

/-- `_get_whitelists` on a cold cache: each secret fetch may raise
(`Except.error`, caught by the surrounding handler which caches two empty
lists) or return `None` (on which `.split` raises `AttributeError`, caught
the same way; only the enterprise secret is guarded with `or ""`). -/
def getWhitelists (teamSecret entSecret : Except String (Option String)) :
    List String × List String :=
  match teamSecret with
  | .error _ => ([], [])
  | .ok none => ([], [])
  | .ok (some ts) =>
    match entSecret with
    | .error _ => ([], [])
    | .ok es => (parseWhitelist ts, parseWhitelist (es.getD ""))

/-- Python `x in l` for an optional string against a string list. -/
def optMem (o : Option String) (l : List String) : Bool :=
  match o with
  | some s => l.contains s
  | none => false

/-- `is_team_authorized`: deny outright when both allow-lists are empty, else
allow iff the team id is listed or the enterprise id is truthy and listed. -/
def is_team_authorized (allowed_teams allowed_enterprises : List String)
    (team_id enterprise_id : Option String) : Bool :=
  if allowed_teams.isEmpty && allowed_enterprises.isEmpty then false
  else if optMem team_id allowed_teams
      || (!(strFalsy enterprise_id) && optMem enterprise_id allowed_enterprises)
    then true
  else false

/-! ## Concrete fixtures used by the witnesses -/

/-- A concrete middleware environment: the IAP verifier recognises three
JWTs (logic intermediary, accessor intermediary, direct user), the
on-behalf-of verifier accepts one token, the directory knows every email and
authorization always passes. -/
def testEnv : Env :=
  { getSecret := fun k => if k == "iapClientId" then some "client-1" else some "aud-1",
    verifyIapJwt := fun jwt _ =>
      if jwt == "logic-jwt" then
        some { email := some "aibot-logic@proj.iam.gserviceaccount.com" }
      else if jwt == "accessor-jwt" then
        some { email := some "mcp-client-accessor@proj.iam.gserviceaccount.com" }
      else if jwt == "user-jwt" then some { email := some "alice@example.com" }
      else none,
    verifyOauth2Token := fun tok _ =>
      if tok == "user-token" then .ok { email := some "user@example.com" }
      else .error "Token expired or invalid",
    usersLookupByEmail := fun _ =>
      { ok := true,
        user := { id := some "U1", team_id := some "T1",
                  enterprise_id := none, enterprise_user := none } },
    isUserAuthorized := fun _ _ _ => true,
    handler := .succeeds,
    now := 100 }

/-- A concrete live-lookup function: channel A open, B private with
membership, C private without membership, anything else raises. -/
def convTest : String → Except String ConvInfoResp := fun cid =>
  if cid == "A" then .ok { ok := true, channel := { is_private := false, is_member := false, name := "general" } }
  else if cid == "B" then .ok { ok := true, channel := { is_private := true, is_member := true, name := "priv-b" } }
  else if cid == "C" then .ok { ok := true, channel := { is_private := true, is_member := false, name := "priv-c" } }
  else .error "boom"

/-- A search environment whose vector search returns nothing. -/
def searchEnvEmpty : SearchEnv Unit :=
  { slackUserToken := some "tok",
    generateEmbeddings := fun _ => .ok (),
    performVectorSearch := fun _ => .ok [],
    cacheGetChannel := fun _ => none,
    conversationsInfo := convTest,
    teamInfo := .error "unused",
    conversationsReplies := fun _ _ => .error "unused",
    cacheGetUser := fun _ => none,
    usersInfo := fun _ => .error "unused",
    ctxTeamId := none }

/-- A search environment whose only hit lies in a private channel the caller
is not a member of. -/
def searchEnvFiltered : SearchEnv Unit :=
  { slackUserToken := some "tok",
    generateEmbeddings := fun _ => .ok (),
    performVectorSearch := fun _ => .ok [{ channel := "C", ts := "1.0" }],
    cacheGetChannel := fun _ => none,
    conversationsInfo := convTest,
    teamInfo := .error "unused",
    conversationsReplies := fun _ _ => .error "unused",
    cacheGetUser := fun _ => none,
    usersInfo := fun _ => .error "unused",
    ctxTeamId := none }

/-! # Theorems -/

/-! ## Generic helper lemmas -/

/-- A falsy optional string is absent or empty. -/
theorem strFalsy_false_iff (o : Option String) :
    strFalsy o = false ↔ ∃ s, o = some s ∧ (s == "") = false := by
  cases o <;> simp [strFalsy]

/-- An allow-listed path is not a health path. -/
theorem allowedPaths_not_health {pa : String} (hp : pa ∈ ALLOWED_PATHS) :
    ¬(pa = "/health" ∨ pa = "/healthz") := by
  simp only [ALLOWED_PATHS, List.mem_cons, List.not_mem_nil, or_false] at hp
  rcases hp with h | h | h <;> subst h <;> decide

/-- Scrubbed headers are exactly the original pairs whose name is not the
on-behalf-of token header. -/
theorem mem_scrubUserIdToken (hs : List (String × String))
    (kv : String × String) :
    kv ∈ scrubUserIdToken hs
      ↔ kv ∈ hs ∧ (lowerStr kv.1 == "x-user-id-token") = false := by
  simp [scrubUserIdToken, List.mem_filter]

/-- Scrubbing preserves the order of the remaining headers. -/
theorem scrubUserIdToken_sublist (hs : List (String × String)) :
    (scrubUserIdToken hs).Sublist hs :=
  List.filter_sublist hs

/-- The on-behalf-of token header is not found in scrubbed headers. -/
theorem headerGet_scrubUserIdToken (hs : List (String × String)) :
    headerGet (scrubUserIdToken hs) "X-User-ID-Token" = none := by
  have hfind : (scrubUserIdToken hs).find?
      (fun kv => lowerStr kv.1 == lowerStr "X-User-ID-Token") = none := by
    rw [List.find?_eq_none]
    intro kv hkv
    have hm := (mem_scrubUserIdToken hs kv).mp hkv
    have hlow : lowerStr "X-User-ID-Token" = "x-user-id-token" := by decide
    rw [hlow]
    simp [hm.2]
  simp [headerGet, hfind]

/-! ## Windowed counter lemmas (claim C3) -/

/-- The freshly appended entry is always inside the window, so appending
inserts its email into the window's distinct set. -/
theorem uniqueUsersInWindow_append (store : List LogEntry) (email : String)
    (now cutoff : Int) (h : cutoff ≤ now) :
    uniqueUsersInWindow (store ++ [{ user_email := email, timestamp := now }]) cutoff
      = insert email (uniqueUsersInWindow store cutoff) := by
  simp [uniqueUsersInWindow, List.filter_append, List.filter, h,
    Finset.union_comm, Finset.insert_eq]

/-- Claim C3: the impersonation windowed counter always appends a new log
entry for the given identity (even when already seen) before counting, and
allows the request iff the number of distinct identities inside the trailing
window, counted after the append, is at most `MAX_UNIQUE_IMPERSONATIONS`.
Consequently a re-recorded identity never counts twice (the decision is the
same test on the pre-append distinct set), while a fresh identity raises the
in-window count by one, so identities are allowed up to the limit and the
next distinct identity beyond the limit is rejected. -/
theorem impersonation_rate_limit_windowed_count (store : List LogEntry)
    (email : String) (now : Int) :
    (checkImpersonationRateLimit store email now).2
        = store ++ [{ user_email := email, timestamp := now }] ∧
    ((checkImpersonationRateLimit store email now).1 = true ↔
      (uniqueUsersInWindow (store ++ [{ user_email := email, timestamp := now }])
          (now - IMPERSONATION_WINDOW_SECONDS)).card ≤ MAX_UNIQUE_IMPERSONATIONS) ∧
    (email ∈ uniqueUsersInWindow store (now - IMPERSONATION_WINDOW_SECONDS) →
      ((checkImpersonationRateLimit store email now).1 = true ↔
        (uniqueUsersInWindow store (now - IMPERSONATION_WINDOW_SECONDS)).card
          ≤ MAX_UNIQUE_IMPERSONATIONS)) ∧
    (email ∉ uniqueUsersInWindow store (now - IMPERSONATION_WINDOW_SECONDS) →
      ((checkImpersonationRateLimit store email now).1 = true ↔
        (uniqueUsersInWindow store (now - IMPERSONATION_WINDOW_SECONDS)).card + 1
          ≤ MAX_UNIQUE_IMPERSONATIONS)) := by
  have hcut : now - IMPERSONATION_WINDOW_SECONDS ≤ now := by
    simp [IMPERSONATION_WINDOW_SECONDS]
  have happ := uniqueUsersInWindow_append store email now
    (now - IMPERSONATION_WINDOW_SECONDS) hcut
  refine ⟨rfl, ?_, ?_, ?_⟩
  · simp [checkImpersonationRateLimit, recordImpersonationEntry]
  · intro hmem
    simp [checkImpersonationRateLimit, recordImpersonationEntry, happ,
      Finset.card_insert_of_mem hmem]
  · intro hmem
    simp [checkImpersonationRateLimit, recordImpersonationEntry, happ,
      Finset.card_insert_of_not_mem hmem]

/-- Witness for claim C3 at a concrete store: re-recording the already-seen
identity appends a second entry yet is still judged against the same distinct
set, so it is allowed. -/
theorem impersonation_rate_limit_windowed_count_witness :
    (checkImpersonationRateLimit [{ user_email := "a@x", timestamp := 100 }]
        "a@x" 110).2
      = [{ user_email := "a@x", timestamp := 100 },
         { user_email := "a@x", timestamp := 110 }] ∧
    (checkImpersonationRateLimit [{ user_email := "a@x", timestamp := 100 }]
        "a@x" 110).1 = true := by
  have h := impersonation_rate_limit_windowed_count
    [{ user_email := "a@x", timestamp := 100 }] "a@x" 110
  exact ⟨h.1, (h.2.2.1 (by decide)).mpr (by decide)⟩

/-! ## Identity-resolution lemmas -/

/-- A direct end user (neither intermediary pattern matches) passes through
identity resolution untouched: same email, same headers, no effects, store
unchanged. -/
theorem resolve_direct (env : Env) (ce : String)
    (hs : List (String × String)) (store : List LogEntry)
    (h1 : is_logic_server ce = false) (h2 : is_accessor_server ce = false) :
    resolveUserIdentity env ce hs store = .proceed ce hs [] store := by
  simp [resolveUserIdentity, h1, h2]

/-- An intermediary caller with a falsy on-behalf-of token header is rejected
with 401 before any token verification. -/
theorem resolve_missing_token (env : Env) (ce : String)
    (hs : List (String × String)) (store : List LogEntry)
    (h : is_logic_server ce = true ∨ is_accessor_server ce = true)
    (ht : strFalsy (headerGet hs "X-User-ID-Token") = true) :
    resolveUserIdentity env ce hs store
      = .reject 401
        (if is_logic_server ce then "X-User-ID-Token required for Logic Server"
         else "X-User-ID-Token required for MCP Client Accessor") [] store := by
  unfold resolveUserIdentity
  rcases h with h | h <;> simp [h, ht]

/-- Effect trace of the token-verification stage: always the verification
itself, followed by the rate check exactly when verification produced a
truthy email. -/
theorem verifyObo_effects (env : Env) (aud : Option String) (tok : String)
    (store : List LogEntry) (hs : List (String × String)) :
    resolveEffects (verifyObo env aud tok store hs)
        = [.verifyUserToken aud] ∨
    ∃ f, resolveEffects (verifyObo env aud tok store hs)
        = [.verifyUserToken aud, .rateCheck f] := by
  unfold verifyObo
  cases env.verifyOauth2Token tok aud with
  | error e => simp [resolveEffects]
  | ok p =>
    by_cases hf : strFalsy p.email = true
    · simp [hf, resolveEffects]
    · by_cases hrc :
        (checkImpersonationRateLimit store (p.email.getD "") env.now).1 = true <;>
        simp [hf, hrc, resolveEffects]

/-- A successful token-verification stage forwards the verified email, the
scrubbed headers, the verify-then-rate-check trace and the appended store. -/
theorem verifyObo_proceed (env : Env) (aud : Option String) (tok : String)
    (store : List LogEntry) (hs : List (String × String)) (f : String)
    (h1 : List (String × String)) (effs : List Effect) (st1 : List LogEntry)
    (heq : verifyObo env aud tok store hs = .proceed f h1 effs st1) :
    h1 = scrubUserIdToken hs ∧ effs = [.verifyUserToken aud, .rateCheck f] := by
  unfold verifyObo at heq
  cases hv : env.verifyOauth2Token tok aud with
  | error e => rw [hv] at heq; exact absurd heq (by simp)
  | ok p =>
    rw [hv] at heq
    dsimp only at heq
    by_cases hf : strFalsy p.email = true
    · rw [if_pos hf] at heq; exact absurd heq (by simp)
    · rw [if_neg hf] at heq
      by_cases hrc :
          (checkImpersonationRateLimit store (p.email.getD "") env.now).1 = true
      · simp only [hrc, if_true] at heq
        cases heq
        exact ⟨rfl, rfl⟩
      · simp only [hrc, if_false, Bool.false_eq_true] at heq
        exact absurd heq (by simp)

/-- Helper: the boolean disjunction of the two intermediary patterns. -/
theorem intermediary_or (ce : String)
    (h : is_logic_server ce = true ∨ is_accessor_server ce = true) :
    (is_logic_server ce || is_accessor_server ce) = true := by
  rcases h with h | h <;> simp [h]

/-- Identity resolution never records a dispatch effect. -/
theorem resolve_no_dispatch (env : Env) (ce : String)
    (hs : List (String × String)) (store : List LogEntry) :
    Effect.dispatch ∉ resolveEffects (resolveUserIdentity env ce hs store) := by
  unfold resolveUserIdentity
  by_cases hcond : (is_logic_server ce || is_accessor_server ce) = true
  · rw [if_pos hcond]
    by_cases ht : strFalsy (headerGet hs "X-User-ID-Token") = true
    · rw [if_pos ht]; simp [resolveEffects]
    · rw [if_neg ht]
      rcases verifyObo_effects env
          (if is_logic_server ce = true then env.getSecret "iapClientId" else none)
          ((headerGet hs "X-User-ID-Token").getD "") store hs with h | ⟨f, h⟩ <;>
        rw [h] <;> simp
  · rw [if_neg hcond]; simp [resolveEffects]

/-- Any token-verification effect recorded by identity resolution names the
audience the policy table demands: the configured client id for the logic
pattern, no audience for the accessor pattern, and nothing at all for a
direct end user. -/
theorem resolve_verifyUserToken_mem (env : Env) (ce : String)
    (hs : List (String × String)) (store : List LogEntry) (aud : Option String)
    (hmem : Effect.verifyUserToken aud
      ∈ resolveEffects (resolveUserIdentity env ce hs store)) :
    (is_logic_server ce = true ∧ aud = env.getSecret "iapClientId") ∨
    (is_logic_server ce = false ∧ is_accessor_server ce = true ∧ aud = none) := by
  unfold resolveUserIdentity at hmem
  by_cases hcond : (is_logic_server ce || is_accessor_server ce) = true
  · rw [if_pos hcond] at hmem
    by_cases ht : strFalsy (headerGet hs "X-User-ID-Token") = true
    · rw [if_pos ht] at hmem; simp [resolveEffects] at hmem
    · rw [if_neg ht] at hmem
      have haud :
          aud = (if is_logic_server ce = true then env.getSecret "iapClientId"
                 else none) := by
        rcases verifyObo_effects env
            (if is_logic_server ce = true then env.getSecret "iapClientId" else none)
            ((headerGet hs "X-User-ID-Token").getD "") store hs with h | ⟨f, h⟩ <;>
          rw [h] at hmem <;> simpa using hmem
      by_cases h1 : is_logic_server ce = true
      · exact Or.inl ⟨h1, by simpa [h1] using haud⟩
      · have h2 : is_accessor_server ce = true := by
          rcases Bool.or_eq_true_iff.mp hcond with h | h
          · exact absurd h h1
          · exact h
        exact Or.inr ⟨by simpa using h1, h2, by simpa [h1] using haud⟩
  · rw [if_neg hcond] at hmem
    simp [resolveEffects] at hmem

/-- When an intermediary caller does present an on-behalf-of token, the token
is verified, against the configured client id for the logic pattern and with
no audience for the accessor pattern. -/
theorem resolve_token_present_verifies (env : Env) (ce : String)
    (hs : List (String × String)) (store : List LogEntry)
    (h : is_logic_server ce = true ∨ is_accessor_server ce = true)
    (ht : strFalsy (headerGet hs "X-User-ID-Token") = false) :
    Effect.verifyUserToken
        (if is_logic_server ce then env.getSecret "iapClientId" else none)
      ∈ resolveEffects (resolveUserIdentity env ce hs store) := by
  unfold resolveUserIdentity
  rw [if_pos (intermediary_or ce h), if_neg (by simp [ht])]
  rcases verifyObo_effects env
      (if is_logic_server ce = true then env.getSecret "iapClientId" else none)
      ((headerGet hs "X-User-ID-Token").getD "") store hs with hm | ⟨f, hm⟩ <;>
    rw [hm] <;> simp

/-- Structure of a successful identity resolution: either the direct-user
pass-through, or the intermediary outcome with scrubbed headers and the
verify-then-rate-check trace. -/
theorem resolve_proceed_spec (env : Env) (ce : String)
    (hs : List (String × String)) (store : List LogEntry) (f : String)
    (h1 : List (String × String)) (effs : List Effect) (st1 : List LogEntry)
    (heq : resolveUserIdentity env ce hs store = .proceed f h1 effs st1) :
    (effs = [] ∧ h1 = hs ∧ f = ce ∧ st1 = store) ∨
    (h1 = scrubUserIdToken hs ∧
      ∃ aud, effs = [.verifyUserToken aud, .rateCheck f]) := by
  unfold resolveUserIdentity at heq
  by_cases hcond : (is_logic_server ce || is_accessor_server ce) = true
  · rw [if_pos hcond] at heq
    by_cases ht : strFalsy (headerGet hs "X-User-ID-Token") = true
    · rw [if_pos ht] at heq; exact absurd heq (by simp)
    · rw [if_neg ht] at heq
      have := verifyObo_proceed env _ _ store hs f h1 effs st1 heq
      exact Or.inr ⟨this.1, _, this.2⟩
  · rw [if_neg hcond] at heq
    cases heq
    exact Or.inl ⟨rfl, rfl, rfl, rfl⟩

/-! ## Middleware lemmas -/

/-- Behaviour of the post-identity stage: the context variables left behind
are always the entry values, the store is passed through, the statuses are
403/200/500 (never 401 or 429), the handler sees exactly the forwarded
headers, membership of token-verification and rate-check effects reduces to
the incoming trace, and the handler context is populated exactly when a
dispatch effect is recorded. -/
theorem afterIdentity_spec (env : Env) (iapAud : Option String)
    (f : String) (h1 : List (String × String)) (effs : List Effect)
    (st1 : List LogEntry) (u0 t0 : Option String) :
    (afterIdentity env iapAud f h1 effs st1 u0 t0).finalCtxUser = u0 ∧
    (afterIdentity env iapAud f h1 effs st1 u0 t0).finalCtxTeam = t0 ∧
    (afterIdentity env iapAud f h1 effs st1 u0 t0).store = st1 ∧
    (afterIdentity env iapAud f h1 effs st1 u0 t0).status ≠ 401 ∧
    (afterIdentity env iapAud f h1 effs st1 u0 t0).status ≠ 429 ∧
    (∀ hs1, (afterIdentity env iapAud f h1 effs st1 u0 t0).handlerHeaders
        = some hs1 → hs1 = h1) ∧
    (∀ aud, Effect.verifyUserToken aud
        ∈ (afterIdentity env iapAud f h1 effs st1 u0 t0).effects
      ↔ Effect.verifyUserToken aud ∈ effs) ∧
    (∀ em, Effect.rateCheck em
        ∈ (afterIdentity env iapAud f h1 effs st1 u0 t0).effects
      ↔ Effect.rateCheck em ∈ effs) ∧
    (Effect.dispatch ∉ effs →
      ((afterIdentity env iapAud f h1 effs st1 u0 t0).handlerCtx.isSome
        ↔ Effect.dispatch
          ∈ (afterIdentity env iapAud f h1 effs st1 u0 t0).effects)) := by
  unfold afterIdentity
  by_cases hok : (env.usersLookupByEmail f).ok = true
  · by_cases hauth : env.isUserAuthorized f
        (resolveTeamId (env.usersLookupByEmail f).user)
        (env.usersLookupByEmail f).user.enterprise_id = true
    · cases hh : env.handler <;>
        refine ⟨by simp [hok, hauth], by simp [hok, hauth], by simp [hok, hauth],
          by simp [hok, hauth, hh], by simp [hok, hauth, hh],
          fun hs1 h => by simpa [hok, hauth] using h.symm,
          fun aud => by simp [hok, hauth],
          fun em => by simp [hok, hauth],
          fun hnd => by simp [hok, hauth]⟩
    · simp only [Bool.not_eq_true] at hauth
      simp [hok, hauth, mwReject]
  · simp only [Bool.not_eq_true] at hok
    simp [hok, mwReject]

/-- The middleware on an allow-listed path with a verified caller email is
the identity-resolution step followed by the post-identity stage. -/
theorem securityMiddleware_verified (env : Env) (req : HttpRequest)
    (store : List LogEntry) (u0 t0 : Option String) (jwt : String)
    (p : IapPayload) (hp : req.path ∈ ALLOWED_PATHS)
    (hj : headerGet req.headers "X-Goog-IAP-JWT-Assertion" = some jwt)
    (hjne : (jwt == "") = false)
    (hv : env.verifyIapJwt jwt (env.getSecret "iapAudience") = some p)
    (hpe : strFalsy p.email = false) :
    securityMiddleware env req store u0 t0
      = match resolveUserIdentity env (p.email.getD "") req.headers store with
        | .reject st er effs store1 =>
          mwReject st er (Effect.verifyIap (env.getSecret "iapAudience") :: effs)
            store1 u0 t0
        | .proceed f h1 effs st1 =>
          afterIdentity env (env.getSecret "iapAudience") f h1 effs st1 u0 t0 := by
  unfold securityMiddleware
  rw [if_neg (allowedPaths_not_health hp), if_neg (not_not_intro hp)]
  simp only [hj, Option.getD_some]
  rw [if_neg (show ¬(strFalsy (some jwt) = true) by simp [strFalsy, hjne]), hv]
  dsimp only
  rw [if_neg (by simp [hpe])]

/-- Characterization of an established verified caller email. -/
theorem verifiedCallerEmail_some (env : Env) (req : HttpRequest) (e : String)
    (hve : verifiedCallerEmail env req = some e) :
    ∃ jwt p, headerGet req.headers "X-Goog-IAP-JWT-Assertion" = some jwt ∧
      (jwt == "") = false ∧
      env.verifyIapJwt jwt (env.getSecret "iapAudience") = some p ∧
      p.email = some e ∧ (e == "") = false := by
  unfold verifiedCallerEmail at hve
  by_cases hm : strFalsy (headerGet req.headers "X-Goog-IAP-JWT-Assertion") = true
  · rw [if_pos hm] at hve; exact absurd hve (by simp)
  · rw [if_neg hm] at hve
    have hm' : strFalsy (headerGet req.headers "X-Goog-IAP-JWT-Assertion") = false := by
      revert hm; cases strFalsy (headerGet req.headers "X-Goog-IAP-JWT-Assertion") <;> simp
    rcases (strFalsy_false_iff _).mp hm' with ⟨jwt, hj, hjne⟩
    rw [hj] at hve
    simp only [Option.getD_some] at hve
    cases hvv : env.verifyIapJwt jwt (env.getSecret "iapAudience") with
    | none => rw [hvv] at hve; exact absurd hve (by simp)
    | some p =>
      rw [hvv] at hve
      dsimp only at hve
      by_cases hpe : strFalsy p.email = true
      · rw [if_pos hpe] at hve; exact absurd hve (by simp)
      · rw [if_neg hpe] at hve
        refine ⟨jwt, p, hj, hjne, hvv, hve, ?_⟩
        have : strFalsy p.email = false := by
          revert hpe; cases strFalsy p.email <;> simp
        rw [hve] at this
        simpa [strFalsy] using this

/-- The verified caller email computed from the middleware's own branch
conditions. -/
theorem verifiedCallerEmail_of (env : Env) (req : HttpRequest)
    (hm : strFalsy (headerGet req.headers "X-Goog-IAP-JWT-Assertion") = false)
    (p : IapPayload)
    (hv : env.verifyIapJwt
        ((headerGet req.headers "X-Goog-IAP-JWT-Assertion").getD "")
        (env.getSecret "iapAudience") = some p)
    (hpe : strFalsy p.email = false) :
    verifiedCallerEmail env req = some (p.email.getD "") := by
  unfold verifiedCallerEmail
  rw [if_neg (by simp [hm]), hv]
  dsimp only
  rw [if_neg (by simp [hpe])]
  rcases (strFalsy_false_iff _).mp hpe with ⟨s, hs, _⟩
  simp [hs]

/-! ## Claim theorems about the middleware -/

/-- Claim C8: for every request, the context variables left behind by the
middleware equal their entry values — the resolved identity never persists
past the request, whether the handler returns normally or raises (the
environment quantifies over both handler behaviours, and every internal
rejection path leaves the context untouched) — and the request-scoped
identity is populated for the handler exactly when the handler is dispatched. -/
theorem identity_binding_scoped_to_request (env : Env) (req : HttpRequest)
    (store : List LogEntry) (u0 t0 : Option String) :
    (securityMiddleware env req store u0 t0).finalCtxUser = u0 ∧
    (securityMiddleware env req store u0 t0).finalCtxTeam = t0 ∧
    ((securityMiddleware env req store u0 t0).handlerCtx.isSome
      ↔ Effect.dispatch ∈ (securityMiddleware env req store u0 t0).effects) := by
  unfold securityMiddleware
  by_cases hh : req.path = "/health" ∨ req.path = "/healthz"
  · rw [if_pos hh]; exact ⟨rfl, rfl, by simp⟩
  rw [if_neg hh]
  by_cases hna : req.path ∉ ALLOWED_PATHS
  · rw [if_pos hna]; exact ⟨rfl, rfl, by simp [mwReject]⟩
  rw [if_neg hna]
  by_cases hm : strFalsy (headerGet req.headers "X-Goog-IAP-JWT-Assertion") = true
  · rw [if_pos hm]; exact ⟨rfl, rfl, by simp [mwReject]⟩
  rw [if_neg hm]
  dsimp only
  cases hv : env.verifyIapJwt
      ((headerGet req.headers "X-Goog-IAP-JWT-Assertion").getD "")
      (env.getSecret "iapAudience") with
  | none => exact ⟨rfl, rfl, by simp [mwReject]⟩
  | some p =>
    dsimp only
    by_cases hpe : strFalsy p.email = true
    · rw [if_pos hpe]; exact ⟨rfl, rfl, by simp [mwReject]⟩
    rw [if_neg hpe]
    have hnd := resolve_no_dispatch env (p.email.getD "") req.headers store
    cases hr : resolveUserIdentity env (p.email.getD "") req.headers store with
    | reject st er effs store1 =>
      rw [hr] at hnd
      simp only [resolveEffects] at hnd
      exact ⟨rfl, rfl, by simp [mwReject, hnd]⟩
    | proceed f h1 effs st1 =>
      rw [hr] at hnd
      simp only [resolveEffects] at hnd
      have hsp := afterIdentity_spec env (env.getSecret "iapAudience")
        f h1 effs st1 u0 t0
      exact ⟨hsp.1, hsp.2.1, hsp.2.2.2.2.2.2.2.2 hnd⟩

/-- Claim C5: a request whose path is neither a health path nor on the
allow-list is answered 403 with error body `Forbidden` whatever headers it
carries — the result equals the plain rejection with an empty effect trace,
so no credential was parsed or verified, no handler ran and the store is
unchanged — while a health path short-circuits with 200, no effects and no
handler dispatch. -/
theorem non_allowlisted_path_forbidden (env : Env) (req : HttpRequest)
    (store : List LogEntry) (u0 t0 : Option String) :
    (req.path ≠ "/health" → req.path ≠ "/healthz" → req.path ∉ ALLOWED_PATHS →
      securityMiddleware env req store u0 t0
        = mwReject 403 "Forbidden" [] store u0 t0) ∧
    ((req.path = "/health" ∨ req.path = "/healthz") →
      (securityMiddleware env req store u0 t0).status = 200 ∧
      (securityMiddleware env req store u0 t0).effects = [] ∧
      (securityMiddleware env req store u0 t0).handlerHeaders = none) := by
  constructor
  · intro h1 h2 h3
    unfold securityMiddleware
    rw [if_neg (by tauto), if_pos h3]
  · intro h
    unfold securityMiddleware
    rw [if_pos h]
    exact ⟨rfl, rfl, rfl⟩

/-- Witness for claim C5: a probing request to `/admin` with a credential
header attached is rejected as Forbidden with no effects. -/
theorem non_allowlisted_path_forbidden_witness :
    securityMiddleware testEnv
        { path := "/admin", headers := [("X-Goog-IAP-JWT-Assertion", "user-jwt")] }
        [] none none
      = mwReject 403 "Forbidden" [] [] none none :=
  (non_allowlisted_path_forbidden testEnv
      { path := "/admin", headers := [("X-Goog-IAP-JWT-Assertion", "user-jwt")] }
      [] none none).1 (by decide) (by decide) (by decide)

/-- Counterexample to claim C6 as stated: a request to an allow-listed path
whose perimeter assertion is present but fails verification is answered 403,
not 401. -/
theorem invalid_assertion_status_counterexample :
    (securityMiddleware testEnv
        { path := "/mcp/sse", headers := [("X-Goog-IAP-JWT-Assertion", "bad-jwt")] }
        [] none none).status = 403 ∧
    ¬((securityMiddleware testEnv
        { path := "/mcp/sse", headers := [("X-Goog-IAP-JWT-Assertion", "bad-jwt")] }
        [] none none).status = 401) := by
  constructor
  · rfl
  · decide

/-- Claim C6 (amended): on an allow-listed path, a missing (or empty)
perimeter assertion header is answered 401 and a present-but-invalid
assertion is answered 403 `Invalid IAP Assertion`; both outcomes are
terminal — no handler dispatch, untouched store, and an effect trace
containing at most the perimeter verification itself, so no identity
resolution, rate limiting or authorization is started. -/
theorem perimeter_assertion_failures_terminal (env : Env) (req : HttpRequest)
    (store : List LogEntry) (u0 t0 : Option String)
    (hp : req.path ∈ ALLOWED_PATHS) :
    (strFalsy (headerGet req.headers "X-Goog-IAP-JWT-Assertion") = true →
      securityMiddleware env req store u0 t0
        = mwReject 401 "Authentication required (IAP)" [] store u0 t0) ∧
    (∀ jwt, headerGet req.headers "X-Goog-IAP-JWT-Assertion" = some jwt →
      (jwt == "") = false →
      env.verifyIapJwt jwt (env.getSecret "iapAudience") = none →
      securityMiddleware env req store u0 t0
        = mwReject 403 "Invalid IAP Assertion"
            [.verifyIap (env.getSecret "iapAudience")] store u0 t0) := by
  have hnh := allowedPaths_not_health hp
  constructor
  · intro hm
    unfold securityMiddleware
    rw [if_neg hnh, if_neg (not_not_intro hp), if_pos hm]
  · intro jwt hj hjne hv
    unfold securityMiddleware
    rw [if_neg hnh, if_neg (not_not_intro hp)]
    simp only [hj, Option.getD_some]
    rw [if_neg (show ¬(strFalsy (some jwt) = true) by simp [strFalsy, hjne]), hv]

/-- Witness for the amended claim C6: the missing-header and invalid-token
cases at concrete requests. -/
theorem perimeter_assertion_failures_terminal_witness :
    securityMiddleware testEnv { path := "/mcp/sse", headers := [] } [] none none
      = mwReject 401 "Authentication required (IAP)" [] [] none none ∧
    securityMiddleware testEnv
        { path := "/mcp/sse", headers := [("X-Goog-IAP-JWT-Assertion", "bad-jwt")] }
        [] none none
      = mwReject 403 "Invalid IAP Assertion"
          [.verifyIap (testEnv.getSecret "iapAudience")] [] none none := by
  constructor
  · exact (perimeter_assertion_failures_terminal testEnv
      { path := "/mcp/sse", headers := [] } [] none none (by decide)).1 (by decide)
  · exact (perimeter_assertion_failures_terminal testEnv
      { path := "/mcp/sse", headers := [("X-Goog-IAP-JWT-Assertion", "bad-jwt")] }
      [] none none (by decide)).2 "bad-jwt" (by decide) (by decide) (by decide)

/-- Claim C7: when the verified caller matches neither intermediary pattern
(a direct end user), the middleware leaves the impersonation store untouched,
never records a rate-check effect, and never answers 401 or 429 — in
particular no on-behalf-of token is demanded. -/
theorem direct_user_no_rate_limit (env : Env) (req : HttpRequest)
    (store : List LogEntry) (u0 t0 : Option String) (jwt : String)
    (p : IapPayload) (e : String)
    (hj : headerGet req.headers "X-Goog-IAP-JWT-Assertion" = some jwt)
    (hjne : (jwt == "") = false)
    (hv : env.verifyIapJwt jwt (env.getSecret "iapAudience") = some p)
    (hpe : p.email = some e) (hene : (e == "") = false)
    (hl : is_logic_server e = false) (ha : is_accessor_server e = false) :
    (securityMiddleware env req store u0 t0).store = store ∧
    (∀ em, Effect.rateCheck em ∉ (securityMiddleware env req store u0 t0).effects) ∧
    (securityMiddleware env req store u0 t0).status ≠ 401 ∧
    (securityMiddleware env req store u0 t0).status ≠ 429 := by
  by_cases hp : req.path ∈ ALLOWED_PATHS
  · have hpe' : strFalsy p.email = false := by simp [hpe, strFalsy, hene]
    rw [securityMiddleware_verified env req store u0 t0 jwt p hp hj hjne hv hpe']
    have hget : p.email.getD "" = e := by simp [hpe]
    rw [hget, resolve_direct env e req.headers store hl ha]
    dsimp only
    have hsp := afterIdentity_spec env (env.getSecret "iapAudience")
      e req.headers [] store u0 t0
    refine ⟨hsp.2.2.1, fun em hmem => ?_, hsp.2.2.2.1, hsp.2.2.2.2.1⟩
    exact absurd ((hsp.2.2.2.2.2.2.2.1 em).mp hmem) (by simp)
  · by_cases hh : req.path = "/health" ∨ req.path = "/healthz"
    · unfold securityMiddleware
      rw [if_pos hh]
      exact ⟨rfl, by simp, by simp, by simp⟩
    · unfold securityMiddleware
      rw [if_neg hh, if_pos hp]
      exact ⟨rfl, by simp [mwReject], by simp [mwReject], by simp [mwReject]⟩

/-- Witness for claim C7: a direct end user calling with only the perimeter
assertion passes through with the store untouched and no 401. -/
theorem direct_user_no_rate_limit_witness :
    (securityMiddleware testEnv
        { path := "/mcp/sse", headers := [("X-Goog-IAP-JWT-Assertion", "user-jwt")] }
        [] none none).store = [] ∧
    (securityMiddleware testEnv
        { path := "/mcp/sse", headers := [("X-Goog-IAP-JWT-Assertion", "user-jwt")] }
        [] none none).status ≠ 401 := by
  have h := direct_user_no_rate_limit testEnv
    { path := "/mcp/sse", headers := [("X-Goog-IAP-JWT-Assertion", "user-jwt")] }
    [] none none "user-jwt" { email := some "alice@example.com" }
    "alice@example.com" (by decide) (by decide) (by decide) (by decide)
    (by decide) (by decide) (by decide)
  exact ⟨h.1, h.2.2.1⟩

/-- Any token-verification effect in a middleware pass arises from the
identity-resolution step of a request whose perimeter assertion verified with
a truthy email claim. -/
theorem securityMiddleware_verifyUserToken_mem (env : Env) (req : HttpRequest)
    (store : List LogEntry) (u0 t0 : Option String) (aud : Option String)
    (hmem : Effect.verifyUserToken aud
      ∈ (securityMiddleware env req store u0 t0).effects) :
    ∃ p, strFalsy (headerGet req.headers "X-Goog-IAP-JWT-Assertion") = false ∧
      env.verifyIapJwt ((headerGet req.headers "X-Goog-IAP-JWT-Assertion").getD "")
          (env.getSecret "iapAudience") = some p ∧
      strFalsy p.email = false ∧
      Effect.verifyUserToken aud
        ∈ resolveEffects (resolveUserIdentity env (p.email.getD "")
            req.headers store) := by
  revert hmem
  unfold securityMiddleware
  by_cases hhp : req.path = "/health" ∨ req.path = "/healthz"
  · rw [if_pos hhp]; intro hmem; simp at hmem
  rw [if_neg hhp]
  by_cases hna : req.path ∉ ALLOWED_PATHS
  · rw [if_pos hna]; intro hmem; simp [mwReject] at hmem
  rw [if_neg hna]
  by_cases hm : strFalsy (headerGet req.headers "X-Goog-IAP-JWT-Assertion") = true
  · rw [if_pos hm]; intro hmem; simp [mwReject] at hmem
  rw [if_neg hm]
  dsimp only
  have hm' : strFalsy (headerGet req.headers "X-Goog-IAP-JWT-Assertion") = false := by
    revert hm; cases strFalsy (headerGet req.headers "X-Goog-IAP-JWT-Assertion") <;> simp
  cases hv : env.verifyIapJwt
      ((headerGet req.headers "X-Goog-IAP-JWT-Assertion").getD "")
      (env.getSecret "iapAudience") with
  | none => intro hmem; simp [mwReject] at hmem
  | some p =>
    dsimp only
    by_cases hpe : strFalsy p.email = true
    · rw [if_pos hpe]; intro hmem; simp [mwReject] at hmem
    rw [if_neg hpe]
    have hpe' : strFalsy p.email = false := by
      revert hpe; cases strFalsy p.email <;> simp
    cases hr : resolveUserIdentity env (p.email.getD "") req.headers store with
    | reject st er effs store1 =>
      intro hmem
      simp only [mwReject, List.mem_cons] at hmem
      rcases hmem with hmem | hmem
      · exact absurd hmem (by simp)
      · exact ⟨p, hm', rfl, hpe', by rw [hr]; simpa [resolveEffects] using hmem⟩
    | proceed f h1 effs st1 =>
      intro hmem
      have hsp := afterIdentity_spec env (env.getSecret "iapAudience")
        f h1 effs st1 u0 t0
      have hin := (hsp.2.2.2.2.2.2.1 aud).mp hmem
      exact ⟨p, hm', rfl, hpe', by rw [hr]; simpa [resolveEffects] using hin⟩

/-- Claim C4: whenever the handler is dispatched on a request in which an
on-behalf-of token was verified (an intermediary call path), the headers the
handler receives are exactly the request headers minus every pair named
`x-user-id-token` (case-insensitively): the token header cannot be looked up
any more, every other pair is passed through unchanged, and the original
order is preserved. -/
theorem obo_token_header_scrubbed (env : Env) (req : HttpRequest)
    (store : List LogEntry) (u0 t0 : Option String)
    (hs1 : List (String × String)) (aud : Option String)
    (hh : (securityMiddleware env req store u0 t0).handlerHeaders = some hs1)
    (hver : Effect.verifyUserToken aud
      ∈ (securityMiddleware env req store u0 t0).effects) :
    headerGet hs1 "X-User-ID-Token" = none ∧
    (∀ kv, kv ∈ hs1
      ↔ (kv ∈ req.headers ∧ (lowerStr kv.1 == "x-user-id-token") = false)) ∧
    hs1.Sublist req.headers := by
  have hscrub : hs1 = scrubUserIdToken req.headers := by
    revert hh hver
    unfold securityMiddleware
    by_cases hhp : req.path = "/health" ∨ req.path = "/healthz"
    · rw [if_pos hhp]; intro hh; simp at hh
    rw [if_neg hhp]
    by_cases hna : req.path ∉ ALLOWED_PATHS
    · rw [if_pos hna]; intro hh; simp [mwReject] at hh
    rw [if_neg hna]
    by_cases hm : strFalsy (headerGet req.headers "X-Goog-IAP-JWT-Assertion") = true
    · rw [if_pos hm]; intro hh; simp [mwReject] at hh
    rw [if_neg hm]
    dsimp only
    cases hv : env.verifyIapJwt
        ((headerGet req.headers "X-Goog-IAP-JWT-Assertion").getD "")
        (env.getSecret "iapAudience") with
    | none => intro hh; simp [mwReject] at hh
    | some p =>
      dsimp only
      by_cases hpe : strFalsy p.email = true
      · rw [if_pos hpe]; intro hh; simp [mwReject] at hh
      rw [if_neg hpe]
      cases hr : resolveUserIdentity env (p.email.getD "") req.headers store with
      | reject st er effs store1 => intro hh; simp [mwReject] at hh
      | proceed f h1 effs st1 =>
        intro hh hver
        have hsp := afterIdentity_spec env (env.getSecret "iapAudience")
          f h1 effs st1 u0 t0
        have h1eq := hsp.2.2.2.2.2.1 hs1 hh
        have hmem := (hsp.2.2.2.2.2.2.1 aud).mp hver
        rcases resolve_proceed_spec env _ req.headers store f h1 effs st1 hr with
          ⟨he, _, _, _⟩ | ⟨hsc, _⟩
        · rw [he] at hmem; simp at hmem
        · rw [h1eq, hsc]
  rw [hscrub]
  exact ⟨headerGet_scrubUserIdToken _, fun kv => mem_scrubUserIdToken _ kv,
    scrubUserIdToken_sublist _⟩

/-- Witness for claim C4: the logic intermediary's accepted call forwards
only the assertion header; the token header is gone and the rest is a
sublist of the original headers. -/
theorem obo_token_header_scrubbed_witness :
    headerGet [(("X-Goog-IAP-JWT-Assertion" : String), ("logic-jwt" : String))]
        "X-User-ID-Token" = none ∧
    List.Sublist [(("X-Goog-IAP-JWT-Assertion" : String), ("logic-jwt" : String))]
      [("X-Goog-IAP-JWT-Assertion", "logic-jwt"), ("X-User-ID-Token", "user-token")] := by
  have h := obo_token_header_scrubbed testEnv
    { path := "/mcp/sse",
      headers := [("X-Goog-IAP-JWT-Assertion", "logic-jwt"),
                  ("X-User-ID-Token", "user-token")] }
    [] none none
    [("X-Goog-IAP-JWT-Assertion", "logic-jwt")] (some "client-1")
    (by decide) (by decide)
  exact ⟨h.1, h.2.2⟩

/-- Claim C1: assuming the client id secret is configured, (1) every
token-verification effect of a middleware pass belongs to a verified caller
matching an intermediary pattern, with the audience demanded by the policy
table — the configured client id for the logic pattern, and no audience only
for the accessor pattern, so no other call path omits the audience check;
(2) an intermediary caller without an on-behalf-of token is answered 401 with
no token verification performed; (3) an intermediary caller presenting a
token has it verified under its pattern's audience. -/
theorem intermediary_token_audience_policy (env : Env) (req : HttpRequest)
    (store : List LogEntry) (u0 t0 : Option String) (cid : String)
    (hcid : env.getSecret "iapClientId" = some cid) :
    (∀ aud, Effect.verifyUserToken aud
        ∈ (securityMiddleware env req store u0 t0).effects →
      ∃ e, verifiedCallerEmail env req = some e ∧
        ((is_logic_server e = true ∧ aud = some cid) ∨
         (is_logic_server e = false ∧ is_accessor_server e = true ∧ aud = none))) ∧
    (∀ e, verifiedCallerEmail env req = some e → req.path ∈ ALLOWED_PATHS →
      (is_logic_server e = true ∨ is_accessor_server e = true) →
      strFalsy (headerGet req.headers "X-User-ID-Token") = true →
      (securityMiddleware env req store u0 t0).status = 401 ∧
      ∀ aud, Effect.verifyUserToken aud
        ∉ (securityMiddleware env req store u0 t0).effects) ∧
    (∀ e, verifiedCallerEmail env req = some e → req.path ∈ ALLOWED_PATHS →
      strFalsy (headerGet req.headers "X-User-ID-Token") = false →
      (is_logic_server e = true →
        Effect.verifyUserToken (some cid)
          ∈ (securityMiddleware env req store u0 t0).effects) ∧
      (is_logic_server e = false → is_accessor_server e = true →
        Effect.verifyUserToken none
          ∈ (securityMiddleware env req store u0 t0).effects)) := by
  refine ⟨?_, ?_, ?_⟩
  · intro aud hmem
    rcases securityMiddleware_verifyUserToken_mem env req store u0 t0 aud hmem with
      ⟨p, hm', hv, hpe', hres⟩
    refine ⟨p.email.getD "", verifiedCallerEmail_of env req hm' p hv hpe', ?_⟩
    rcases resolve_verifyUserToken_mem env _ req.headers store aud hres with
      ⟨hl, haud⟩ | ⟨hl, ha, haud⟩
    · exact Or.inl ⟨hl, by rw [haud, hcid]⟩
    · exact Or.inr ⟨hl, ha, haud⟩
  · intro e hve hp hint ht
    rcases verifiedCallerEmail_some env req e hve with ⟨jwt, p, hj, hjne, hvv, hpes, hene⟩
    have hpe' : strFalsy p.email = false := by simp [hpes, strFalsy, hene]
    have hget : p.email.getD "" = e := by simp [hpes]
    rw [securityMiddleware_verified env req store u0 t0 jwt p hp hj hjne hvv hpe',
      hget, resolve_missing_token env e req.headers store hint ht]
    dsimp only
    exact ⟨rfl, fun aud => by simp [mwReject]⟩
  · intro e hve hp ht
    rcases verifiedCallerEmail_some env req e hve with ⟨jwt, p, hj, hjne, hvv, hpes, hene⟩
    have hpe' : strFalsy p.email = false := by simp [hpes, strFalsy, hene]
    have hget : p.email.getD "" = e := by simp [hpes]
    rw [securityMiddleware_verified env req store u0 t0 jwt p hp hj hjne hvv hpe', hget]
    constructor
    · intro hl
      have hmem := resolve_token_present_verifies env e req.headers store (Or.inl hl) ht
      rw [hl] at hmem
      simp only [if_true] at hmem
      rw [hcid] at hmem
      cases hr : resolveUserIdentity env e req.headers store with
      | reject st er effs store1 =>
        rw [hr] at hmem
        simp only [resolveEffects] at hmem
        dsimp only
        simp [mwReject, hmem]
      | proceed f h1 effs st1 =>
        rw [hr] at hmem
        simp only [resolveEffects] at hmem
        dsimp only
        exact (afterIdentity_spec env (env.getSecret "iapAudience")
          f h1 effs st1 u0 t0).2.2.2.2.2.2.1 (some cid) |>.mpr hmem
    · intro hl ha
      have hmem := resolve_token_present_verifies env e req.headers store (Or.inr ha) ht
      rw [hl] at hmem
      simp only [Bool.false_eq_true, if_false] at hmem
      cases hr : resolveUserIdentity env e req.headers store with
      | reject st er effs store1 =>
        rw [hr] at hmem
        simp only [resolveEffects] at hmem
        dsimp only
        simp [mwReject, hmem]
      | proceed f h1 effs st1 =>
        rw [hr] at hmem
        simp only [resolveEffects] at hmem
        dsimp only
        exact (afterIdentity_spec env (env.getSecret "iapAudience")
          f h1 effs st1 u0 t0).2.2.2.2.2.2.1 none |>.mpr hmem

/-- Witness for claim C1: the accessor intermediary without a token is
answered 401, and the logic intermediary presenting a token has it verified
against the configured client id. -/
theorem intermediary_token_audience_policy_witness :
    (securityMiddleware testEnv
        { path := "/mcp/sse",
          headers := [("X-Goog-IAP-JWT-Assertion", "accessor-jwt")] }
        [] none none).status = 401 ∧
    Effect.verifyUserToken (some "client-1")
      ∈ (securityMiddleware testEnv
          { path := "/mcp/sse",
            headers := [("X-Goog-IAP-JWT-Assertion", "logic-jwt"),
                        ("X-User-ID-Token", "user-token")] }
          [] none none).effects := by
  constructor
  · exact ((intermediary_token_audience_policy testEnv
      { path := "/mcp/sse", headers := [("X-Goog-IAP-JWT-Assertion", "accessor-jwt")] }
      [] none none "client-1" (by decide)).2.1
      "mcp-client-accessor@proj.iam.gserviceaccount.com"
      (by decide) (by decide) (Or.inr (by decide)) (by decide)).1
  · exact ((intermediary_token_audience_policy testEnv
      { path := "/mcp/sse",
        headers := [("X-Goog-IAP-JWT-Assertion", "logic-jwt"),
                    ("X-User-ID-Token", "user-token")] }
      [] none none "client-1" (by decide)).2.2
      "aibot-logic@proj.iam.gserviceaccount.com"
      (by decide) (by decide) (by decide)).1 (by decide)

/-! ## Claim theorems about the search pipeline -/

/-- Claim C2: a hit survives the permission filter exactly when its
container's recorded access decision is permitted; under a cold cache the
live decision is permitted iff the channel is not private or the caller is a
member; and a container whose live lookup raises or answers not-ok yields a
non-permitted (absent or false) entry, so every hit in that container is
dropped. -/
theorem permission_filter_fail_closed (cacheGet : String → Option AccessRes)
    (convInfo : String → Except String ConvInfoResp)
    (results : List SearchHit) :
    (∀ row, row ∈ filterResults results (channelAccessEntry cacheGet convInfo)
      ↔ (row ∈ results ∧
        permittedLookup (channelAccessEntry cacheGet convInfo) row.channel
          = true)) ∧
    (∀ cid info, cacheGet cid = none → convInfo cid = .ok info →
      info.ok = true →
      channelAccessEntry cacheGet convInfo cid
        = some { permitted := !info.channel.is_private || info.channel.is_member,
                 name := some info.channel.name }) ∧
    (∀ cid, cacheGet cid = none →
      ((∃ msg, convInfo cid = .error msg) ∨
        (∃ info, convInfo cid = .ok info ∧ info.ok = false)) →
      ∀ row ∈ results, row.channel = cid →
        row ∉ filterResults results (channelAccessEntry cacheGet convInfo)) := by
  refine ⟨?_, ?_, ?_⟩
  · intro row
    simp [filterResults, List.mem_filter]
  · intro cid info hc hv hok
    simp [channelAccessEntry, hc, hv, hok]
  · intro cid hc herr row hrow hch hmem
    rw [filterResults, List.mem_filter] at hmem
    have hperm := hmem.2
    rw [hch] at hperm
    rcases herr with ⟨msg, hv⟩ | ⟨info, hv, hnok⟩
    · simp [permittedLookup, channelAccessEntry, hc, hv] at hperm
    · simp [permittedLookup, channelAccessEntry, hc, hv, hnok] at hperm

/-- Witness for claim C2 at a concrete index: hits in the open channel A
survive, hits in private non-member channel C are dropped. -/
theorem permission_filter_fail_closed_witness :
    ({ channel := "A", ts := "1" } : SearchHit)
      ∈ filterResults
          [{ channel := "A", ts := "1" }, { channel := "B", ts := "2" },
           { channel := "C", ts := "3" }, { channel := "D", ts := "4" }]
          (channelAccessEntry (fun _ => none) convTest) ∧
    ({ channel := "C", ts := "3" } : SearchHit)
      ∉ filterResults
          [{ channel := "A", ts := "1" }, { channel := "B", ts := "2" },
           { channel := "C", ts := "3" }, { channel := "D", ts := "4" }]
          (channelAccessEntry (fun _ => none) convTest) := by
  have h := permission_filter_fail_closed (fun _ => none) convTest
    [{ channel := "A", ts := "1" }, { channel := "B", ts := "2" },
     { channel := "C", ts := "3" }, { channel := "D", ts := "4" }]
  constructor
  · exact (h.1 { channel := "A", ts := "1" }).mpr (by decide)
  · intro hmem
    exact absurd ((h.1 { channel := "C", ts := "3" }).mp hmem).2 (by decide)

/-- Every run of the pipeline body ends in one of the two explicit empty
results, a rendered message list, or a caught error. -/
theorem searchPipeline_shape {Emb : Type} (env : SearchEnv Emb)
    (query : String) :
    searchPipeline env query = .ok "No messages found." ∨
    searchPipeline env query = .ok "No messages found in your authorized channels." ∨
    (∃ msgs, searchPipeline env query = .ok (renderMessages msgs)) ∨
    (∃ e, searchPipeline env query = .error e) := by
  unfold searchPipeline
  cases env.generateEmbeddings query with
  | error e => exact Or.inr (Or.inr (Or.inr ⟨e, rfl⟩))
  | ok emb =>
    dsimp only
    cases env.performVectorSearch emb with
    | error e => exact Or.inr (Or.inr (Or.inr ⟨e, rfl⟩))
    | ok results =>
      dsimp only
      by_cases hres : results.isEmpty = true
      · rw [if_pos hres]; exact Or.inl rfl
      rw [if_neg hres]
      by_cases hfil : (filterResults results
          (channelAccessEntry env.cacheGetChannel env.conversationsInfo)).isEmpty = true
      · rw [if_pos hfil]; exact Or.inr (Or.inl rfl)
      rw [if_neg hfil]
      cases env.teamInfo with
      | error e => exact Or.inr (Or.inr (Or.inr ⟨e, rfl⟩))
      | ok teamResp =>
        dsimp only
        by_cases hok : teamResp.ok = true
        · rw [if_neg (by simp [hok])]
          exact Or.inr (Or.inr (Or.inl ⟨_, rfl⟩))
        · rw [if_pos (by simp [Bool.not_eq_true] at hok; simp [hok])]
          exact Or.inr (Or.inr (Or.inr ⟨_, rfl⟩))

/-- Claim C9: the search tool always returns one of its explicit result
strings — the no-token report, one of the two empty-result messages, an
error string prefixed `Error during search: ` for any exception raised in
the pipeline, or the rendered message list — and in particular an empty
vector-search result or a fully-filtered result set yields the explicit
empty-result messages, never an error. -/
theorem search_tool_total_and_explicit {Emb : Type} (env : SearchEnv Emb)
    (query : String) :
    (search_slack_messages env query = "No Slack token found." ∨
     search_slack_messages env query = "No messages found." ∨
     search_slack_messages env query = "No messages found in your authorized channels." ∨
     (∃ e, search_slack_messages env query = "Error during search: " ++ e) ∨
     (∃ msgs, search_slack_messages env query = renderMessages msgs)) ∧
    (strFalsy env.slackUserToken = false →
      ∀ emb, env.generateEmbeddings query = .ok emb →
        env.performVectorSearch emb = .ok ([] : List SearchHit) →
        search_slack_messages env query = "No messages found.") ∧
    (strFalsy env.slackUserToken = false →
      ∀ emb results, env.generateEmbeddings query = .ok emb →
        env.performVectorSearch emb = .ok results →
        results ≠ [] →
        filterResults results
          (channelAccessEntry env.cacheGetChannel env.conversationsInfo) = [] →
        search_slack_messages env query
          = "No messages found in your authorized channels.") := by
  refine ⟨?_, ?_, ?_⟩
  · unfold search_slack_messages
    by_cases ht : strFalsy env.slackUserToken = true
    · rw [if_pos ht]; exact Or.inl rfl
    rw [if_neg ht]
    rcases searchPipeline_shape env query with h | h | ⟨msgs, h⟩ | ⟨e, h⟩ <;> rw [h]
    · exact Or.inr (Or.inl rfl)
    · exact Or.inr (Or.inr (Or.inl rfl))
    · exact Or.inr (Or.inr (Or.inr (Or.inr ⟨msgs, rfl⟩)))
    · exact Or.inr (Or.inr (Or.inr (Or.inl ⟨e, rfl⟩)))
  · intro ht emb hge hpv
    unfold search_slack_messages
    rw [if_neg (by simp [ht])]
    unfold searchPipeline
    rw [hge]
    dsimp only
    rw [hpv]
    rfl
  · intro ht emb results hge hpv hne hfil
    unfold search_slack_messages
    rw [if_neg (by simp [ht])]
    unfold searchPipeline
    rw [hge]
    dsimp only
    rw [hpv]
    dsimp only
    rw [if_neg (by simp [List.isEmpty_iff, hne]),
      if_pos (by simp [List.isEmpty_iff, hfil])]

/-- Witness for claim C9: an empty index yields the explicit empty message,
and a hit filtered out by permissions yields the authorized-channels
message. -/
theorem search_tool_total_and_explicit_witness :
    search_slack_messages searchEnvEmpty "q" = "No messages found." ∧
    search_slack_messages searchEnvFiltered "q"
      = "No messages found in your authorized channels." := by
  constructor
  · exact (search_tool_total_and_explicit searchEnvEmpty "q").2.1 rfl () rfl rfl
  · exact (search_tool_total_and_explicit searchEnvFiltered "q").2.2 rfl ()
      [{ channel := "C", ts := "1.0" }] rfl rfl (by decide) (by decide)

/-! ## Claim theorem about the shared team authorization -/

/-- Claim C10: with both allow-lists empty the team-authorization check
denies every (team id, enterprise id) pair, and every failure mode of the
whitelist loader — a raising team-secret fetch, a raising enterprise-secret
fetch, or an absent team secret (on which `.split` raises) — produces
exactly that pair of empty lists, so authorization is never granted by
default on missing or unloadable configuration. -/
theorem empty_whitelists_deny_all :
    (∀ team ent, is_team_authorized [] [] team ent = false) ∧
    (∀ msg entSec team ent,
      getWhitelists (Except.error msg) entSec = ([], []) ∧
      is_team_authorized (getWhitelists (Except.error msg) entSec).1
        (getWhitelists (Except.error msg) entSec).2 team ent = false) ∧
    (∀ ts msg team ent,
      getWhitelists (Except.ok (some ts)) (Except.error msg) = ([], []) ∧
      is_team_authorized
        (getWhitelists (Except.ok (some ts)) (Except.error msg)).1
        (getWhitelists (Except.ok (some ts)) (Except.error msg)).2 team ent
          = false) ∧
    (∀ entSec team ent,
      getWhitelists (Except.ok none) entSec = ([], []) ∧
      is_team_authorized (getWhitelists (Except.ok none) entSec).1
        (getWhitelists (Except.ok none) entSec).2 team ent = false) := by
  refine ⟨fun team ent => rfl, fun msg entSec team ent => ⟨rfl, rfl⟩,
    fun ts msg team ent => ⟨rfl, rfl⟩, fun entSec team ent => ⟨rfl, rfl⟩⟩

end Aibot
